import Mathlib

/-!
Shallow embedding of the my-workout-tracker Express/MySQL server
(src/server.js, schema in the SQL script) and proofs about its
route handlers.

Modelling conventions:
- Request-body values are JavaScript values (`JSValue`), so that the
  truthiness and typeof checks of the validation middleware are modelled
  as in the source.  Numbers are modelled as integers (the claims only
  exercise integer inputs).
- The MySQL store is a record of four tables of typed rows, per the
  CREATE TABLE statements of the schema script.
- Each handler is a pure function of its inputs, the store state, and an
  error oracle errs : Nat -> Bool (errs k = true means the k-th store
  call of this request reports a driver error).  A query that targets a
  table absent from the schema always errors, whatever the oracle says.
- Each handler returns its HTTP status, the new store state (for
  store-reading handlers: its result rows), and the trace of store calls
  it issued, each call being the SQL text together with the bound
  parameters.  Multi-line SQL template literals are transcribed with
  their whitespace collapsed to single spaces.
-/

namespace WorkoutTracker

/-- A JavaScript value as it can appear in a parsed JSON request body. -/
inductive JSValue where
  | null
  | undefined
  | bool (b : Bool)
  | num (n : Int)
  | str (s : String)
deriving DecidableEq, Repr

/-- JavaScript truthiness: null, undefined, false, 0 and the empty string
are falsy; everything else here is truthy. -/
def truthy : JSValue → Bool
  | .null => false
  | .undefined => false
  | .bool b => b
  | .num n => n != 0
  | .str s => s != ""

/-- typeof v === "number" -/
def typeofNumber : JSValue → Bool
  | .num _ => true
  | _ => false

/-- Reads a run of decimal digits as a number, failing on any other
character. -/
def digitsToNat : List Char → Nat → Option Nat
  | [], acc => some acc
  | c :: cs, acc =>
      if c.isDigit then digitsToNat cs (acc * 10 + (c.toNat - 48)) else none

/-- Whitespace stripped by ToNumber on strings. -/
def isWhite (c : Char) : Bool :=
  c = ' ' || c = '\t' || c = '\n' || c = '\r'

/-- Strips leading and trailing whitespace. -/
def trimChars (cs : List Char) : List Char :=
  ((cs.dropWhile isWhite).reverse.dropWhile isWhite).reverse

/-- JavaScript ToNumber on a string (none = NaN), restricted to the
integer strings the claims exercise: trimmed, optional sign, digits;
the empty string converts to 0. -/
def strToNumber (s : String) : Option Int :=
  match trimChars s.toList with
  | [] => some (0 : Int)
  | '-' :: cs =>
      if cs = [] then none
      else (digitsToNat cs 0).map (fun n => -(n : Int))
  | '+' :: cs =>
      if cs = [] then none
      else (digitsToNat cs 0).map (fun n => (n : Int))
  | cs => (digitsToNat cs 0).map (fun n => (n : Int))

/-- JavaScript ToNumber (none = NaN). -/
def toNumber : JSValue → Option Int
  | .null => some (0 : Int)
  | .undefined => none
  | .bool b => some (if b then (1 : Int) else 0)
  | .num n => some n
  | .str s => strToNumber s

/-- The comparison v < 0 of the set guard: the operand is converted with
ToNumber, and a comparison against NaN is false. -/
def jsLtZero (v : JSValue) : Bool :=
  match toNumber v with
  | some n => decide (n < 0)
  | none => false

/-- Body of POST /workout_exercises. -/
structure WorkoutExerciseBody where
  workout_id : JSValue
  exercise_id : JSValue
deriving DecidableEq, Repr

/-- Body of POST /sets. -/
structure SetBody where
  workout_exercises_id : JSValue
  reps : JSValue
  weight : JSValue
deriving DecidableEq, Repr

/-- validateWorkoutExerciseInput: returns the 400 message sent, or none
when control passes to the route handler. -/
def validateWorkoutExerciseInput (b : WorkoutExerciseBody) : Option String :=
  if !(truthy b.workout_id) then some ("Missing required field: workout_id.")
  else if !(truthy b.exercise_id) then some ("Missing required field: exercise_id.")
  else if !(typeofNumber b.workout_id) then
    some ("Invalid input: workout_id must be a number.")
  else if !(typeofNumber b.exercise_id) then
    some ("Invalid input: exercise_id must be a number.")
  else none

/-- validateSetInput: returns the 400 message sent, or none when control
passes to the route handler. -/
def validateSetInput (b : SetBody) : Option String :=
  if !(truthy b.workout_exercises_id) then
    some ("Missing required field: workout_exercises_id")
  else if !(truthy b.reps) then some ("Missing required field: reps")
  else if !(truthy b.weight) then some ("Missing required field: weight")
  else if jsLtZero b.reps then some ("Reps must be at least 1 or more.")
  else if jsLtZero b.weight then some ("Weight must be at least 1 lbs or more.")
  else none

/-- A row of the workouts table. -/
structure WorkoutRow where
  id : Int
  name : String
  date : String
  notes : Option String
deriving DecidableEq, Repr

/-- A row of the exercises table (after the ALTER statements). -/
structure ExerciseRow where
  id : Int
  name : String
  equipment : String
  muscle_group : String
deriving DecidableEq, Repr

/-- A row of the workout_exercises table. -/
structure WorkoutExerciseRow where
  id : Int
  workout_id : Int
  exercise_id : Int
deriving DecidableEq, Repr

/-- A row of the sets table (weight modelled as an integer). -/
structure SetRow where
  id : Int
  workout_exercises_id : Int
  reps : Int
  weight : Int
deriving DecidableEq, Repr

/-- The MySQL store: the four tables the schema script creates. -/
structure DB where
  workouts : List WorkoutRow
  exercises : List ExerciseRow
  workout_exercises : List WorkoutExerciseRow
  sets : List SetRow
deriving DecidableEq, Repr

/-- An SQL query as the server issues it: its constant text and the table
it targets (transcribed verbatim from the text). -/
structure SqlQuery where
  text : String
  table : String
deriving DecidableEq, Repr

/-- The tables the schema script creates. -/
def tableExists (t : String) : Bool :=
  t == "workouts" || t == "exercises" || t == "workout_exercises" || t == "sets"

/-- The k-th store call of a request fails when the driver reports an
error there or the query targets a table absent from the schema. -/
def stepFails (errs : Nat → Bool) (k : Nat) (q : SqlQuery) : Bool :=
  errs k || !(tableExists q.table)

/-- A store call as recorded in a handler trace: SQL text and bound
parameters. -/
abbrev StoreCall := String × List JSValue

-- Query constants, transcribed from src/server.js.

/-- GET /workouts -/
def selectWorkoutsQuery : SqlQuery :=
  ⟨"SELECT * FROM workouts", "workouts"⟩

/-- POST /workouts -/
def insertWorkoutQuery : SqlQuery :=
  ⟨"INSERT INTO workouts (name, date) VALUES (?, ?)", "workouts"⟩

/-- GET /workouts/:id -/
def workoutDetailQuery : SqlQuery :=
  ⟨"SELECT we.id AS workout_exercise_id, e.name AS exercise_name, s.reps, s.weight FROM workout_exercises we JOIN exercises e ON we.exercise_id = e.id LEFT JOIN sets s ON we.id = s.workout_exercises_id WHERE we.workout_id = ?",
   "workout_exercises"⟩

/-- GET /workouts/:id/exercises -/
def workoutExercisesListQuery : SqlQuery :=
  ⟨"SELECT e.* FROM workout_exercises we JOIN exercises e ON we.exercise_id = e.id WHERE we.workout_id = ?",
   "workout_exercises"⟩

/-- PATCH /workouts/:id/notes -/
def updateNotesQuery : SqlQuery :=
  ⟨"UPDATE workouts SET notes = ? WHERE id = ?", "workouts"⟩

/-- GET /exercises -/
def selectExercisesQuery : SqlQuery :=
  ⟨"SELECT * FROM exercises", "exercises"⟩

/-- POST /workout_exercises -/
def insertWorkoutExerciseQuery : SqlQuery :=
  ⟨"INSERT INTO workout_exercises (workout_id, exercise_id) VALUES (?, ?)",
   "workout_exercises"⟩

/-- POST /sets -/
def insertSetQuery : SqlQuery :=
  ⟨"INSERT INTO sets (workout_exercises_id, reps, weight) VALUES (?, ?, ?)", "sets"⟩

/-- DELETE /workouts/:id, step 1 (deleteWorkoutExerciseSetsQuery). -/
def deleteWorkoutExerciseSetsQuery : SqlQuery :=
  ⟨"DELETE FROM sets WHERE workout_exercises_id IN (SELECT id FROM workout_exercises WHERE workout_id = ?)",
   "sets"⟩

/-- DELETE /workouts/:id, step 2 (deleteWorkoutExerciseQuery). -/
def deleteWorkoutExerciseQuery : SqlQuery :=
  ⟨"DELETE FROM workout_exercises WHERE workout_id = ?", "workout_exercises"⟩

/-- DELETE /workouts/:id, step 3 (deleteWorkoutQuery). -/
def deleteWorkoutQuery : SqlQuery :=
  ⟨"DELETE FROM workouts WHERE id = ?", "workouts"⟩

/-- DELETE /workout_exercises/:id, step 1 (deleteSetsQuery). -/
def deleteSetsQuery : SqlQuery :=
  ⟨"DELETE FROM sets WHERE workout_exercises_id = ?", "sets"⟩

/-- DELETE /workout_exercises/:id, step 2: the deleteWorkoutExerciseQuery
of that handler.  Its text names the table workout_exercise (singular),
which the schema script never creates. -/
def deleteWorkoutExerciseRowQuery : SqlQuery :=
  ⟨"DELETE FROM workout_exercise WHERE id = ?", "workout_exercise"⟩

/-- ids of the workout_exercises rows of workout wid: the subquery
SELECT id FROM workout_exercises WHERE workout_id = ?. -/
def weIdsForWorkout (wid : Int) (db : DB) : List Int :=
  (db.workout_exercises.filter (fun we => we.workout_id == wid)).map
    (fun we => we.id)

/-- Rows the step-1 delete of DELETE /workouts/:id would remove. -/
def setsForWorkoutCount (wid : Int) (db : DB) : Nat :=
  db.sets.countP (fun s => (weIdsForWorkout wid db).contains s.workout_exercises_id)

/-- Rows the step-2 delete of DELETE /workouts/:id would remove. -/
def weForWorkoutCount (wid : Int) (db : DB) : Nat :=
  db.workout_exercises.countP (fun we => we.workout_id == wid)

/-- Rows DELETE FROM workouts WHERE id = ? would remove. -/
def workoutRowCount (wid : Int) (db : DB) : Nat :=
  db.workouts.countP (fun w => w.id == wid)

/-- Outcome of a handler that may mutate the store: HTTP status, the
store afterwards, and the trace of store calls issued. -/
structure Outcome where
  status : Nat
  db : DB
  trace : List StoreCall
deriving DecidableEq, Repr

/-- app.delete("/workouts/:id"): three chained deletes, each run only
when the previous one succeeded; 500 on the first store error, then 404
when the final delete affected no row, 200 otherwise. -/
def deleteWorkoutHandler (wid : Int) (errs : Nat → Bool) (db : DB) : Outcome :=
  let q1 : StoreCall := (deleteWorkoutExerciseSetsQuery.text, [JSValue.num wid])
  let q2 : StoreCall := (deleteWorkoutExerciseQuery.text, [JSValue.num wid])
  let q3 : StoreCall := (deleteWorkoutQuery.text, [JSValue.num wid])
  if stepFails errs 0 deleteWorkoutExerciseSetsQuery then ⟨500, db, [q1]⟩
  else
    let db1 : DB :=
      { db with sets := (db.sets.filter
          (fun s => !((weIdsForWorkout wid db).contains s.workout_exercises_id))) }
    if stepFails errs 1 deleteWorkoutExerciseQuery then ⟨500, db1, [q1, q2]⟩
    else
      let db2 : DB :=
        { db1 with workout_exercises := (db1.workout_exercises.filter
            (fun we => !(we.workout_id == wid))) }
      if stepFails errs 2 deleteWorkoutQuery then ⟨500, db2, [q1, q2, q3]⟩
      else
        let affected := workoutRowCount wid db2
        let db3 : DB :=
          { db2 with workouts := db2.workouts.filter (fun w => !(w.id == wid)) }
        if affected == 0 then ⟨404, db3, [q1, q2, q3]⟩
        else ⟨200, db3, [q1, q2, q3]⟩

/-- app.delete("/workout_exercises/:id"): delete the sets of the
workout_exercise, then its row; the second query targets the table
workout_exercise, which does not exist, so its store call errors. -/
def deleteWorkoutExerciseHandler (weid : Int) (errs : Nat → Bool) (db : DB) :
    Outcome :=
  let q1 : StoreCall := (deleteSetsQuery.text, [JSValue.num weid])
  let q2 : StoreCall := (deleteWorkoutExerciseRowQuery.text, [JSValue.num weid])
  if stepFails errs 0 deleteSetsQuery then ⟨500, db, [q1]⟩
  else
    let db1 : DB :=
      { db with sets := db.sets.filter (fun s => !(s.workout_exercises_id == weid)) }
    if stepFails errs 1 deleteWorkoutExerciseRowQuery then ⟨500, db1, [q1, q2]⟩
    else
      -- Unreachable: the table workout_exercise holds no rows in the
      -- schema, so such a delete would affect zero rows.
      let affected : Nat := 0
      if affected == 0 then ⟨404, db1, [q1, q2]⟩ else ⟨200, db1, [q1, q2]⟩

/-- app.patch("/workouts/:id/notes"): one UPDATE; 500 on store error,
404 when it affected no row, 200 otherwise. -/
def updateNotesHandler (wid : Int) (notes : String) (errs : Nat → Bool)
    (db : DB) : Outcome :=
  let q : StoreCall := (updateNotesQuery.text, [JSValue.str notes, JSValue.num wid])
  if stepFails errs 0 updateNotesQuery then ⟨500, db, [q]⟩
  else
    let affected := workoutRowCount wid db
    let db1 : DB :=
      { db with workouts := (db.workouts.map
          (fun w => if w.id == wid then { w with notes := some notes } else w)) }
    if affected == 0 then ⟨404, db1, [q]⟩ else ⟨200, db1, [q]⟩

/-- A result row of the GET /workouts/:id query: reps and weight are
null when the LEFT JOIN matched no sets row. -/
structure DetailRow where
  workout_exercise_id : Int
  exercise_name : String
  reps : Option Int
  weight : Option Int
deriving DecidableEq, Repr

/-- Result of the GET /workouts/:id query: workout_exercises filtered by
workout_id, inner-joined with exercises on exercise_id, left-joined with
sets on workout_exercises_id. -/
def workoutDetailRows (wid : Int) (db : DB) : List DetailRow :=
  (db.workout_exercises.filter (fun we => we.workout_id == wid)).flatMap
    (fun we =>
      (db.exercises.filter (fun e => e.id == we.exercise_id)).flatMap
        (fun e =>
          let ss := db.sets.filter (fun s => s.workout_exercises_id == we.id)
          if ss = [] then [⟨we.id, e.name, none, none⟩]
          else ss.map (fun s => ⟨we.id, e.name, some s.reps, some s.weight⟩)))

/-- Number of result rows the GET /workouts/:id join produces per the
LEFT JOIN semantics: one row per set of each workout_exercise of the
workout, and a single null row for a workout_exercise with no sets. -/
def expectedDetailCount (wid : Int) (db : DB) : Nat :=
  ((db.workout_exercises.filter (fun we => we.workout_id == wid)).map
    (fun we =>
      let k := db.sets.countP (fun s => s.workout_exercises_id == we.id)
      if k = 0 then 1 else k)).sum

/-- Outcome of a read-only handler returning detail rows. -/
structure DetailOutcome where
  status : Nat
  rows : List DetailRow
  trace : List StoreCall
deriving DecidableEq, Repr

/-- app.get("/workouts/:id"): one SELECT; 500 on store error, else 200
with the join result. -/
def getWorkoutDetailHandler (wid : Int) (errs : Nat → Bool) (db : DB) :
    DetailOutcome :=
  let q : StoreCall := (workoutDetailQuery.text, [JSValue.num wid])
  if stepFails errs 0 workoutDetailQuery then ⟨500, [], [q]⟩
  else ⟨200, workoutDetailRows wid db, [q]⟩

/-- Result of the GET /workouts/:id/exercises query. -/
def exercisesForWorkout (wid : Int) (db : DB) : List ExerciseRow :=
  (db.workout_exercises.filter (fun we => we.workout_id == wid)).flatMap
    (fun we => db.exercises.filter (fun e => e.id == we.exercise_id))

/-- Outcome of a read-only handler returning exercise rows. -/
structure ExerciseListOutcome where
  status : Nat
  rows : List ExerciseRow
  trace : List StoreCall
deriving DecidableEq, Repr

/-- app.get("/workouts/:id/exercises"). -/
def getWorkoutExercisesHandler (wid : Int) (errs : Nat → Bool) (db : DB) :
    ExerciseListOutcome :=
  let q : StoreCall := (workoutExercisesListQuery.text, [JSValue.num wid])
  if stepFails errs 0 workoutExercisesListQuery then ⟨500, [], [q]⟩
  else ⟨200, exercisesForWorkout wid db, [q]⟩

/-- app.get("/exercises"). -/
def getExercisesHandler (errs : Nat → Bool) (db : DB) : ExerciseListOutcome :=
  let q : StoreCall := (selectExercisesQuery.text, [])
  if stepFails errs 0 selectExercisesQuery then ⟨500, [], [q]⟩
  else ⟨200, db.exercises, [q]⟩

/-- Outcome of a read-only handler returning workout rows. -/
structure WorkoutListOutcome where
  status : Nat
  rows : List WorkoutRow
  trace : List StoreCall
deriving DecidableEq, Repr

/-- app.get("/workouts"). -/
def getWorkoutsHandler (errs : Nat → Bool) (db : DB) : WorkoutListOutcome :=
  let q : StoreCall := (selectWorkoutsQuery.text, [])
  if stepFails errs 0 selectWorkoutsQuery then ⟨500, [], [q]⟩
  else ⟨200, db.workouts, [q]⟩

/-- Outcome of an insert endpoint: HTTP status, the 400 message when the
guard stopped the request, and the trace of store calls (the store
effect of a successful insert is not itself observed by any claim). -/
structure InsertOutcome where
  status : Nat
  msg400 : Option String
  trace : List StoreCall
deriving DecidableEq, Repr

/-- app.post("/workouts"): no guard; one INSERT with the body values. -/
def postWorkoutsHandler (name date : JSValue) (errs : Nat → Bool) :
    InsertOutcome :=
  let q : StoreCall := (insertWorkoutQuery.text, [name, date])
  if stepFails errs 0 insertWorkoutQuery then ⟨500, none, [q]⟩
  else ⟨201, none, [q]⟩

/-- app.post("/workout_exercises") behind validateWorkoutExerciseInput. -/
def postWorkoutExercisesHandler (b : WorkoutExerciseBody) (errs : Nat → Bool) :
    InsertOutcome :=
  match validateWorkoutExerciseInput b with
  | some msg => ⟨400, some msg, []⟩
  | none =>
      let q : StoreCall := (insertWorkoutExerciseQuery.text,
        [b.workout_id, b.exercise_id])
      if stepFails errs 0 insertWorkoutExerciseQuery then ⟨500, none, [q]⟩
      else ⟨201, none, [q]⟩

/-- app.post("/sets") behind validateSetInput. -/
def postSetsHandler (b : SetBody) (errs : Nat → Bool) : InsertOutcome :=
  match validateSetInput b with
  | some msg => ⟨400, some msg, []⟩
  | none =>
      let q : StoreCall := (insertSetQuery.text,
        [b.workout_exercises_id, b.reps, b.weight])
      if stepFails errs 0 insertSetQuery then ⟨500, none, [q]⟩
      else ⟨201, none, [q]⟩

/-- A store state obtained from the seed data of the schema script. -/
def sampleDB : DB :=
  ⟨[⟨1, "Leg Day", "2024-01-01", some ("Felt strong today.")⟩,
    ⟨2, "Push Day", "2024-01-02", none⟩],
   [⟨1, "Squat", "Barbell", "Legs"⟩,
    ⟨2, "Bench Press", "Barbell", "Chest"⟩],
   [⟨1, 1, 1⟩, ⟨2, 1, 2⟩, ⟨3, 2, 2⟩],
   [⟨1, 1, 10, 135⟩, ⟨2, 1, 8, 155⟩, ⟨3, 2, 10, 135⟩]⟩

/-- An error oracle with no driver faults. -/
def noErrs : Nat → Bool := fun _ => false

-- Helper lemmas.

/-- The request-level condition under which validateSetInput stops a
request. -/
def setGuardRejects (b : SetBody) : Bool :=
  !(truthy b.workout_exercises_id) || !(truthy b.reps) || !(truthy b.weight)
    || jsLtZero b.reps || jsLtZero b.weight

/-- The request-level condition under which validateWorkoutExerciseInput
stops a request. -/
def weGuardRejects (b : WorkoutExerciseBody) : Bool :=
  !(truthy b.workout_id) || !(truthy b.exercise_id)
    || !(typeofNumber b.workout_id) || !(typeofNumber b.exercise_id)

theorem validateSetInput_eq_none_iff (b : SetBody) :
    validateSetInput b = none ↔ setGuardRejects b = false := by
  unfold validateSetInput setGuardRejects
  split_ifs <;> simp_all

theorem validateWorkoutExerciseInput_eq_none_iff (b : WorkoutExerciseBody) :
    validateWorkoutExerciseInput b = none ↔ weGuardRejects b = false := by
  unfold validateWorkoutExerciseInput weGuardRejects
  split_ifs <;> simp_all

theorem list_map_id_of_mem {α : Type} (l : List α) (f : α → α)
    (h : ∀ a ∈ l, f a = a) : l.map f = l := by
  induction l with
  | nil => rfl
  | cons x xs ih =>
      simp only [List.map_cons]
      rw [h x (by simp), ih (fun a ha => h a (by simp [ha]))]

/-- C4: for every request body, the set guard responds 400 with a
field-naming message and never reaches the route handler (no store call)
iff workout_exercises_id, reps or weight is falsy — so a value of
exactly 0 for reps or weight is rejected as missing — or reps is
negative, or weight is negative; in particular the bodies with reps -1
and with reps 0 (weight 10, workout_exercises_id 1) are both rejected
with 400. -/
theorem claim_C4_set_guard (b : SetBody) (errs : Nat → Bool) :
    ((postSetsHandler b errs).status = 400 ↔ setGuardRejects b = true)
    ∧ ((postSetsHandler b errs).status = 400 →
        (postSetsHandler b errs).trace = []
          ∧ ((postSetsHandler b errs).msg400).isSome = true)
    ∧ (postSetsHandler ⟨JSValue.num 1, JSValue.num (-1), JSValue.num 10⟩ errs).status = 400
    ∧ (postSetsHandler ⟨JSValue.num 1, JSValue.num 0, JSValue.num 10⟩ errs).status = 400 := by
  have hiff := validateSetInput_eq_none_iff b
  have hex1 : validateSetInput ⟨JSValue.num 1, JSValue.num (-1), JSValue.num 10⟩
      = some ("Reps must be at least 1 or more.") := by decide
  have hex2 : validateSetInput ⟨JSValue.num 1, JSValue.num 0, JSValue.num 10⟩
      = some ("Missing required field: reps") := by decide
  cases hv : validateSetInput b with
  | some m =>
      rw [hv] at hiff
      refine ⟨?_, ?_, ?_, ?_⟩
      · have : setGuardRejects b = true := by
          cases hg : setGuardRejects b
          · exact absurd (hiff.mpr hg) (by simp)
          · rfl
        simp [postSetsHandler, hv, this]
      · intro _
        simp [postSetsHandler, hv]
      · simp [postSetsHandler, hex1]
      · simp [postSetsHandler, hex2]
  | none =>
      rw [hv] at hiff
      have hg : setGuardRejects b = false := hiff.mp rfl
      have hst : (postSetsHandler b errs).status ≠ 400 := by
        simp only [postSetsHandler, hv]
        split_ifs <;> simp
      refine ⟨?_, fun h => absurd h hst, ?_, ?_⟩
      · simp [hst, hg]
      · simp [postSetsHandler, hex1]
      · simp [postSetsHandler, hex2]

/-- Witness for C4 at the concrete body with reps 0. -/
theorem claim_C4_set_guard_witness :
    (postSetsHandler ⟨JSValue.num 1, JSValue.num 0, JSValue.num 10⟩ noErrs).trace = []
      ∧ ((postSetsHandler ⟨JSValue.num 1, JSValue.num 0, JSValue.num 10⟩ noErrs).msg400).isSome
          = true :=
  (claim_C4_set_guard ⟨JSValue.num 1, JSValue.num 0, JSValue.num 10⟩ noErrs).2.1 (by decide)

/-- C5: for every request body, the workout-exercise guard responds 400
with a field-specific message and makes no store call iff workout_id or
exercise_id is falsy or not of numeric type (in particular the body with
workout_id "abc" is rejected before any store call); when both fields
are truthy numbers the insert is issued with the body values unchanged. -/
theorem claim_C5_workout_exercise_guard (b : WorkoutExerciseBody) (errs : Nat → Bool) :
    ((postWorkoutExercisesHandler b errs).status = 400 ↔ weGuardRejects b = true)
    ∧ ((postWorkoutExercisesHandler b errs).status = 400 →
        (postWorkoutExercisesHandler b errs).trace = []
          ∧ ((postWorkoutExercisesHandler b errs).msg400).isSome = true)
    ∧ (weGuardRejects b = false →
        (postWorkoutExercisesHandler b errs).trace =
          [(insertWorkoutExerciseQuery.text, [b.workout_id, b.exercise_id])])
    ∧ (postWorkoutExercisesHandler ⟨JSValue.str ("abc"), JSValue.num 2⟩ errs).status = 400
    ∧ (postWorkoutExercisesHandler ⟨JSValue.str ("abc"), JSValue.num 2⟩ errs).trace = [] := by
  have hiff := validateWorkoutExerciseInput_eq_none_iff b
  have hex : validateWorkoutExerciseInput ⟨JSValue.str ("abc"), JSValue.num 2⟩
      = some ("Invalid input: workout_id must be a number.") := by decide
  cases hv : validateWorkoutExerciseInput b with
  | some m =>
      rw [hv] at hiff
      have hg : weGuardRejects b = true := by
        cases hg : weGuardRejects b
        · exact absurd (hiff.mpr hg) (by simp)
        · rfl
      refine ⟨by simp [postWorkoutExercisesHandler, hv, hg], ?_, ?_, ?_, ?_⟩
      · intro _
        simp [postWorkoutExercisesHandler, hv]
      · intro h
        rw [hg] at h
        exact absurd h (by simp)
      · simp [postWorkoutExercisesHandler, hex]
      · simp [postWorkoutExercisesHandler, hex]
  | none =>
      rw [hv] at hiff
      have hg : weGuardRejects b = false := hiff.mp rfl
      have hst : (postWorkoutExercisesHandler b errs).status ≠ 400 := by
        simp only [postWorkoutExercisesHandler, hv]
        split_ifs <;> simp
      refine ⟨by simp [hst, hg], fun h => absurd h hst, ?_, ?_, ?_⟩
      · intro _
        simp only [postWorkoutExercisesHandler, hv]
        split_ifs <;> rfl
      · simp [postWorkoutExercisesHandler, hex]
      · simp [postWorkoutExercisesHandler, hex]

/-- Witness for C5 at a body with two truthy numeric fields. -/
theorem claim_C5_workout_exercise_guard_witness :
    weGuardRejects ⟨JSValue.num 1, JSValue.num 2⟩ = false
      ∧ (postWorkoutExercisesHandler ⟨JSValue.num 1, JSValue.num 2⟩ noErrs).trace =
          [(insertWorkoutExerciseQuery.text, [JSValue.num 1, JSValue.num 2])] :=
  ⟨by decide,
   (claim_C5_workout_exercise_guard ⟨JSValue.num 1, JSValue.num 2⟩ noErrs).2.2.1 (by decide)⟩

/-- C9: the set guard performs no type check: whenever
workout_exercises_id, reps and weight are truthy and neither reps nor
weight compares below zero — including non-numeric values such as a
non-empty string for reps — control reaches the route handler and the
insert into sets is attempted with exactly those body values. -/
theorem claim_C9_set_guard_no_type_check (b : SetBody) (errs : Nat → Bool)
    (h1 : truthy b.workout_exercises_id = true) (h2 : truthy b.reps = true)
    (h3 : truthy b.weight = true) (h4 : jsLtZero b.reps = false)
    (h5 : jsLtZero b.weight = false) :
    (postSetsHandler b errs).status ≠ 400
    ∧ (postSetsHandler b errs).trace =
        [(insertSetQuery.text, [b.workout_exercises_id, b.reps, b.weight])] := by
  have hv : validateSetInput b = none :=
    (validateSetInput_eq_none_iff b).mpr
      (by simp [setGuardRejects, h1, h2, h3, h4, h5])
  constructor
  · simp only [postSetsHandler, hv]
    split_ifs <;> simp
  · simp only [postSetsHandler, hv]
    split_ifs <;> rfl

/-- Witness for C9 at a body whose reps field is the non-numeric
non-empty string "ten". -/
theorem claim_C9_set_guard_no_type_check_witness :
    truthy (JSValue.str ("ten")) = true ∧ jsLtZero (JSValue.str ("ten")) = false
    ∧ (postSetsHandler ⟨JSValue.num 1, JSValue.str ("ten"), JSValue.num 10⟩ noErrs).status ≠ 400
    ∧ (postSetsHandler ⟨JSValue.num 1, JSValue.str ("ten"), JSValue.num 10⟩ noErrs).trace =
        [(insertSetQuery.text, [JSValue.num 1, JSValue.str ("ten"), JSValue.num 10])] :=
  ⟨by decide, by decide,
   (claim_C9_set_guard_no_type_check ⟨JSValue.num 1, JSValue.str ("ten"), JSValue.num 10⟩
      noErrs (by decide) (by decide) (by decide) (by decide) (by decide)).1,
   (claim_C9_set_guard_no_type_check ⟨JSValue.num 1, JSValue.str ("ten"), JSValue.num 10⟩
      noErrs (by decide) (by decide) (by decide) (by decide) (by decide)).2⟩

theorem stepFails_eq_errs (errs : Nat → Bool) (k : Nat) (q : SqlQuery)
    (hq : tableExists q.table = true) : stepFails errs k q = errs k := by
  simp [stepFails, hq]

/-- C1: DELETE /workouts/:id issues sets-for-workout, then
workout_exercises-for-workout, then the workout row delete, in that
order; a store error at a step yields 500 with the later steps not
attempted, and otherwise the status is 404 when the final delete
affected no row and 200 when it affected at least one. -/
theorem claim_C1_delete_workout_sequence (wid : Int) (errs : Nat → Bool) (db : DB) :
    (errs 0 = true →
      (deleteWorkoutHandler wid errs db).status = 500
      ∧ (deleteWorkoutHandler wid errs db).trace =
          [(deleteWorkoutExerciseSetsQuery.text, [JSValue.num wid])])
    ∧ (errs 0 = false → errs 1 = true →
      (deleteWorkoutHandler wid errs db).status = 500
      ∧ (deleteWorkoutHandler wid errs db).trace =
          [(deleteWorkoutExerciseSetsQuery.text, [JSValue.num wid]),
           (deleteWorkoutExerciseQuery.text, [JSValue.num wid])])
    ∧ (errs 0 = false → errs 1 = false → errs 2 = true →
      (deleteWorkoutHandler wid errs db).status = 500
      ∧ (deleteWorkoutHandler wid errs db).trace =
          [(deleteWorkoutExerciseSetsQuery.text, [JSValue.num wid]),
           (deleteWorkoutExerciseQuery.text, [JSValue.num wid]),
           (deleteWorkoutQuery.text, [JSValue.num wid])])
    ∧ (errs 0 = false → errs 1 = false → errs 2 = false →
      (deleteWorkoutHandler wid errs db).trace =
          [(deleteWorkoutExerciseSetsQuery.text, [JSValue.num wid]),
           (deleteWorkoutExerciseQuery.text, [JSValue.num wid]),
           (deleteWorkoutQuery.text, [JSValue.num wid])]
      ∧ (workoutRowCount wid db = 0 → (deleteWorkoutHandler wid errs db).status = 404)
      ∧ (workoutRowCount wid db ≠ 0 → (deleteWorkoutHandler wid errs db).status = 200)) := by
  have s0 := stepFails_eq_errs errs 0 deleteWorkoutExerciseSetsQuery (by decide)
  have s1 := stepFails_eq_errs errs 1 deleteWorkoutExerciseQuery (by decide)
  have s2 := stepFails_eq_errs errs 2 deleteWorkoutQuery (by decide)
  refine ⟨fun h0 => ?_, fun h0 h1 => ?_, fun h0 h1 h2 => ?_, fun h0 h1 h2 => ?_⟩
  · simp [deleteWorkoutHandler, s0, h0]
  · simp [deleteWorkoutHandler, s0, s1, h0, h1]
  · simp [deleteWorkoutHandler, s0, s1, s2, h0, h1, h2]
  · refine ⟨?_, fun hc => ?_, fun hc => ?_⟩
    · simp [deleteWorkoutHandler, s0, s1, s2, h0, h1, h2]
      split_ifs <;> rfl
    · simp only [workoutRowCount] at hc
      simp [deleteWorkoutHandler, s0, s1, s2, h0, h1, h2, workoutRowCount, hc]
    · simp only [workoutRowCount] at hc
      simp [deleteWorkoutHandler, s0, s1, s2, h0, h1, h2, workoutRowCount, hc]

/-- Witness for C1: a faultless run on the seed store deletes workout 1
with status 200, and a first-step fault stops after one query. -/
theorem claim_C1_delete_workout_sequence_witness :
    (deleteWorkoutHandler 1 noErrs sampleDB).trace =
        [(deleteWorkoutExerciseSetsQuery.text, [JSValue.num 1]),
         (deleteWorkoutExerciseQuery.text, [JSValue.num 1]),
         (deleteWorkoutQuery.text, [JSValue.num 1])]
    ∧ (deleteWorkoutHandler 1 noErrs sampleDB).status = 200
    ∧ (deleteWorkoutHandler 1 (fun _ => true) sampleDB).status = 500
    ∧ (deleteWorkoutHandler 1 (fun _ => true) sampleDB).trace =
        [(deleteWorkoutExerciseSetsQuery.text, [JSValue.num 1])] := by
  have h4 := (claim_C1_delete_workout_sequence 1 noErrs sampleDB).2.2.2 rfl rfl rfl
  have h1 := (claim_C1_delete_workout_sequence 1 (fun _ => true) sampleDB).1 rfl
  exact ⟨h4.1, h4.2.2 (by decide), h1.1, h1.2⟩

/-- C2: for every store state and workout id X present in the store, a
successful (200) DELETE /workouts/:id removes every set whose parent
workout_exercise belongs to X, every workout_exercises row of X, and
the workout row X, leaving no orphaned workout_exercise or set
referencing X, and leaves all other rows (including every exercises
row) unchanged. -/
theorem claim_C2_delete_workout_no_orphans (X : Int) (errs : Nat → Bool) (db : DB)
    (hpres : ∃ w ∈ db.workouts, w.id = X)
    (h200 : (deleteWorkoutHandler X errs db).status = 200) :
    (deleteWorkoutHandler X errs db).db.workouts
        = db.workouts.filter (fun w => !(w.id == X))
    ∧ (deleteWorkoutHandler X errs db).db.workout_exercises
        = db.workout_exercises.filter (fun we => !(we.workout_id == X))
    ∧ (deleteWorkoutHandler X errs db).db.sets
        = db.sets.filter
            (fun s => !((weIdsForWorkout X db).contains s.workout_exercises_id))
    ∧ (deleteWorkoutHandler X errs db).db.exercises = db.exercises
    ∧ (∀ w ∈ (deleteWorkoutHandler X errs db).db.workouts, w.id ≠ X)
    ∧ (∀ we ∈ (deleteWorkoutHandler X errs db).db.workout_exercises, we.workout_id ≠ X)
    ∧ (∀ s ∈ (deleteWorkoutHandler X errs db).db.sets,
        ∀ we ∈ db.workout_exercises, we.workout_id = X →
          s.workout_exercises_id ≠ we.id) := by
  have s0 := stepFails_eq_errs errs 0 deleteWorkoutExerciseSetsQuery (by decide)
  have s1 := stepFails_eq_errs errs 1 deleteWorkoutExerciseQuery (by decide)
  have s2 := stepFails_eq_errs errs 2 deleteWorkoutQuery (by decide)
  cases h0 : errs 0 with
  | true => simp [deleteWorkoutHandler, s0, h0] at h200
  | false =>
  cases h1 : errs 1 with
  | true => simp [deleteWorkoutHandler, s0, s1, h0, h1] at h200
  | false =>
  cases h2 : errs 2 with
  | true => simp [deleteWorkoutHandler, s0, s1, s2, h0, h1, h2] at h200
  | false =>
  by_cases hc : db.workouts.countP (fun w => w.id == X) = 0
  · simp [deleteWorkoutHandler, s0, s1, s2, h0, h1, h2, workoutRowCount, hc] at h200
  · have hval : deleteWorkoutHandler X errs db =
        ⟨200,
         ⟨db.workouts.filter (fun w => !(w.id == X)),
          db.exercises,
          db.workout_exercises.filter (fun we => !(we.workout_id == X)),
          db.sets.filter
            (fun s => !((weIdsForWorkout X db).contains s.workout_exercises_id))⟩,
         [(deleteWorkoutExerciseSetsQuery.text, [JSValue.num X]),
          (deleteWorkoutExerciseQuery.text, [JSValue.num X]),
          (deleteWorkoutQuery.text, [JSValue.num X])]⟩ := by
      simp [deleteWorkoutHandler, s0, s1, s2, h0, h1, h2, workoutRowCount, hc]
    refine ⟨by simp [hval], by simp [hval], by simp [hval], by simp [hval], ?_, ?_, ?_⟩
    · intro w hw
      rw [hval] at hw
      simp only at hw
      have := (List.mem_filter.mp hw).2
      simpa using this
    · intro we hwe
      rw [hval] at hwe
      simp only at hwe
      have := (List.mem_filter.mp hwe).2
      simpa using this
    · intro s hs we hwe hX heq
      rw [hval] at hs
      simp only at hs
      have hnc := (List.mem_filter.mp hs).2
      have hmem : we.id ∈ weIdsForWorkout X db :=
        List.mem_map.mpr ⟨we, List.mem_filter.mpr ⟨hwe, by simp [hX]⟩, rfl⟩
      rw [heq] at hnc
      simp at hnc
      exact hnc hmem

/-- Witness for C2 on the seed store: deleting workout 1 with no store
faults reports 200 and leaves only the rows of workout 2. -/
theorem claim_C2_delete_workout_no_orphans_witness :
    (deleteWorkoutHandler 1 noErrs sampleDB).db.workouts
        = sampleDB.workouts.filter (fun w => !(w.id == 1))
    ∧ (deleteWorkoutHandler 1 noErrs sampleDB).db.workout_exercises
        = sampleDB.workout_exercises.filter (fun we => !(we.workout_id == 1))
    ∧ (deleteWorkoutHandler 1 noErrs sampleDB).db.sets
        = sampleDB.sets.filter
            (fun s => !((weIdsForWorkout 1 sampleDB).contains s.workout_exercises_id))
    ∧ (deleteWorkoutHandler 1 noErrs sampleDB).db.exercises = sampleDB.exercises :=
  have h := claim_C2_delete_workout_no_orphans 1 noErrs sampleDB
    ⟨⟨1, "Leg Day", "2024-01-01", some ("Felt strong today.")⟩, by decide, rfl⟩
    (by decide)
  ⟨h.1, h.2.1, h.2.2.1, h.2.2.2.1⟩

/-- C10: on a store whose workout_exercises rows all reference existing
workouts, deleting an absent workout id X with no store faults still
issues all three deletes in order, each would affect zero rows, the
response is 404, and the store is unchanged. -/
theorem claim_C10_delete_missing_workout (X : Int) (errs : Nat → Bool) (db : DB)
    (hri : ∀ we ∈ db.workout_exercises, ∃ w ∈ db.workouts, w.id = we.workout_id)
    (habs : ∀ w ∈ db.workouts, w.id ≠ X)
    (he0 : errs 0 = false) (he1 : errs 1 = false) (he2 : errs 2 = false) :
    (deleteWorkoutHandler X errs db).status = 404
    ∧ (deleteWorkoutHandler X errs db).db = db
    ∧ (deleteWorkoutHandler X errs db).trace =
        [(deleteWorkoutExerciseSetsQuery.text, [JSValue.num X]),
         (deleteWorkoutExerciseQuery.text, [JSValue.num X]),
         (deleteWorkoutQuery.text, [JSValue.num X])]
    ∧ setsForWorkoutCount X db = 0
    ∧ weForWorkoutCount X db = 0
    ∧ workoutRowCount X db = 0 := by
  have s0 := stepFails_eq_errs errs 0 deleteWorkoutExerciseSetsQuery (by decide)
  have s1 := stepFails_eq_errs errs 1 deleteWorkoutExerciseQuery (by decide)
  have s2 := stepFails_eq_errs errs 2 deleteWorkoutQuery (by decide)
  have hnowe : ∀ we ∈ db.workout_exercises, we.workout_id ≠ X := by
    intro we hwe hX
    obtain ⟨w, hw, hid⟩ := hri we hwe
    exact habs w hw (by rw [hid, hX])
  have hids : weIdsForWorkout X db = [] := by
    unfold weIdsForWorkout
    rw [List.filter_eq_nil_iff.mpr (fun we hwe => by simp [hnowe we hwe])]
    rfl
  have hsets : db.sets.filter
      (fun s => !((weIdsForWorkout X db).contains s.workout_exercises_id)) = db.sets :=
    List.filter_eq_self.mpr (fun s _ => by simp [hids])
  have hwes : db.workout_exercises.filter (fun we => !(we.workout_id == X))
      = db.workout_exercises :=
    List.filter_eq_self.mpr (fun we hwe => by simp [hnowe we hwe])
  have hcnt : db.workouts.countP (fun w => w.id == X) = 0 :=
    List.countP_eq_zero.mpr (fun w hw => by simp [habs w hw])
  have hws : db.workouts.filter (fun w => !(w.id == X)) = db.workouts :=
    List.filter_eq_self.mpr (fun w hw => by simp [habs w hw])
  obtain ⟨ws, es, wes, ss⟩ := db
  simp only at hsets hwes hcnt hws hids
  refine ⟨?_, ?_, ?_, ?_, ?_, ?_⟩
  · simp [deleteWorkoutHandler, s0, s1, s2, he0, he1, he2, workoutRowCount, hids, hcnt]
  · simp [deleteWorkoutHandler, s0, s1, s2, he0, he1, he2, workoutRowCount, hids, hcnt,
      hsets, hwes, hws]
  · simp [deleteWorkoutHandler, s0, s1, s2, he0, he1, he2, workoutRowCount, hids, hcnt]
  · simp [setsForWorkoutCount, hids]
  · exact List.countP_eq_zero.mpr (fun we hwe => by simp [hnowe we hwe])
  · exact hcnt

/-- Witness for C10 on the seed store with the absent workout id 5. -/
theorem claim_C10_delete_missing_workout_witness :
    (deleteWorkoutHandler 5 noErrs sampleDB).status = 404
    ∧ (deleteWorkoutHandler 5 noErrs sampleDB).db = sampleDB
    ∧ workoutRowCount 5 sampleDB = 0 :=
  have h := claim_C10_delete_missing_workout 5 noErrs sampleDB
    (by decide) (by decide) rfl rfl rfl
  ⟨h.1, h.2.1, h.2.2.2.2.2⟩

/-- C6: PATCH /workouts/:id/notes responds 500 on a store error leaving
the store unchanged; otherwise it updates the notes field of the
matching workout rows and responds 200 when at least one row was
affected and 404 when zero rows were affected, in which case the store
is unchanged. -/
theorem claim_C6_update_notes (wid : Int) (notes : String) (errs : Nat → Bool)
    (db : DB) :
    (errs 0 = true →
      (updateNotesHandler wid notes errs db).status = 500
      ∧ (updateNotesHandler wid notes errs db).db = db)
    ∧ (errs 0 = false → workoutRowCount wid db = 0 →
      (updateNotesHandler wid notes errs db).status = 404
      ∧ (updateNotesHandler wid notes errs db).db = db)
    ∧ (errs 0 = false → workoutRowCount wid db ≠ 0 →
      (updateNotesHandler wid notes errs db).status = 200
      ∧ (updateNotesHandler wid notes errs db).db.workouts
          = db.workouts.map
              (fun w => if w.id == wid then { w with notes := some notes } else w)
      ∧ (updateNotesHandler wid notes errs db).db.exercises = db.exercises
      ∧ (updateNotesHandler wid notes errs db).db.workout_exercises
          = db.workout_exercises
      ∧ (updateNotesHandler wid notes errs db).db.sets = db.sets) := by
  have s := stepFails_eq_errs errs 0 updateNotesQuery (by decide)
  refine ⟨fun h0 => ?_, fun h0 hc => ?_, fun h0 hc => ?_⟩
  · simp [updateNotesHandler, s, h0]
  · simp only [workoutRowCount] at hc
    have hmap : db.workouts.map
        (fun w => if w.id == wid then { w with notes := some notes } else w)
          = db.workouts := by
      apply list_map_id_of_mem
      intro w hw
      have hne : (w.id == wid) = false := by
        simpa using List.countP_eq_zero.mp hc w hw
      simp [hne]
    obtain ⟨ws, es, wes, ss⟩ := db
    simp only at hc hmap
    simp only [beq_iff_eq] at hmap
    constructor
    · simp [updateNotesHandler, s, h0, workoutRowCount, hc]
    · simp [updateNotesHandler, s, h0, workoutRowCount, hc, hmap]
  · simp only [workoutRowCount] at hc
    obtain ⟨ws, es, wes, ss⟩ := db
    simp only at hc
    refine ⟨?_, ?_, ?_, ?_, ?_⟩ <;>
      simp [updateNotesHandler, s, h0, workoutRowCount, hc]

/-- Witness for C6: updating notes of the absent workout 9 yields 404
and leaves the seed store unchanged; updating workout 1 yields 200. -/
theorem claim_C6_update_notes_witness :
    (updateNotesHandler 9 ("hi") noErrs sampleDB).status = 404
    ∧ (updateNotesHandler 9 ("hi") noErrs sampleDB).db = sampleDB
    ∧ (updateNotesHandler 1 ("hi") noErrs sampleDB).status = 200 :=
  have h4 := (claim_C6_update_notes 9 ("hi") noErrs sampleDB).2.1 rfl (by decide)
  have h2 := (claim_C6_update_notes 1 ("hi") noErrs sampleDB).2.2 rfl (by decide)
  ⟨h4.1, h4.2, h2.1⟩

/-- C3: the second query of DELETE /workout_exercises/:id names the
table workout_exercise, which the schema never creates (it defines
workout_exercises), so every request to this endpoint reports a store
error and responds 500 after the sets delete already ran; in
particular at id 1 on the seed store with a fault-free driver the
handler deletes the sets of workout_exercise 1 and then responds 500,
never reaching the 200/404 logic the claim describes. -/
theorem claim_C3_delete_workout_exercise_table_bug :
    (∀ (weid : Int) (errs : Nat → Bool) (db : DB),
        (deleteWorkoutExerciseHandler weid errs db).status = 500)
    ∧ deleteWorkoutExerciseRowQuery.table = "workout_exercise"
    ∧ tableExists ("workout_exercise") = false
    ∧ tableExists ("workout_exercises") = true
    ∧ (deleteWorkoutExerciseHandler 1 noErrs sampleDB).status = 500
    ∧ (deleteWorkoutExerciseHandler 1 noErrs sampleDB).trace =
        [(deleteSetsQuery.text, [JSValue.num 1]),
         (deleteWorkoutExerciseRowQuery.text, [JSValue.num 1])]
    ∧ (deleteWorkoutExerciseHandler 1 noErrs sampleDB).db.sets =
        [⟨3, 2, 10, 135⟩] := by
  refine ⟨?_, by decide, by decide, by decide, by decide, by decide, by decide⟩
  intro weid errs db
  have h2 : stepFails errs 1 deleteWorkoutExerciseRowQuery = true := by
    simp [stepFails, deleteWorkoutExerciseRowQuery, tableExists]
  cases h0 : stepFails errs 0 deleteSetsQuery
  · simp [deleteWorkoutExerciseHandler, h0, h2]
  · simp [deleteWorkoutExerciseHandler, h0]

theorem exercises_filter_eq_singleton (l : List ExerciseRow) (x : Int)
    (a : ExerciseRow) (ha : a ∈ l) (hk : a.id = x)
    (hnd : (l.map (fun e => e.id)).Nodup) :
    l.filter (fun e => e.id == x) = [a] := by
  induction l with
  | nil => cases ha
  | cons b bs ih =>
      rw [List.map_cons, List.nodup_cons] at hnd
      obtain ⟨hb, hbs⟩ := hnd
      rcases List.mem_cons.mp ha with rfl | ha'
      · rw [List.filter_cons_of_pos (by simp [hk])]
        rw [List.filter_eq_nil_iff.mpr ?_]
        · intro e he
          intro hex
          apply hb
          have hex' : e.id = x := by simpa using hex
          exact List.mem_map.mpr ⟨e, he, by rw [hex', hk]⟩
      · have hbx : (b.id == x) = false := by
          cases hbeq : (b.id == x)
          · rfl
          · exfalso
            apply hb
            have : b.id = x := by simpa using hbeq
            exact List.mem_map.mpr ⟨a, ha', by rw [hk, this]⟩
        rw [List.filter_cons_of_neg (by simp [hbx])]
        exact ih ha' hbs

theorem workoutDetailRows_length (wid : Int) (db : DB)
    (hfk : ∀ we ∈ db.workout_exercises, we.workout_id = wid →
      ∃ e ∈ db.exercises, e.id = we.exercise_id)
    (hnd : (db.exercises.map (fun e => e.id)).Nodup) :
    (workoutDetailRows wid db).length = expectedDetailCount wid db := by
  unfold workoutDetailRows expectedDetailCount
  rw [List.length_flatMap]
  congr 1
  apply List.map_congr_left
  intro we hwe
  have hwid : we.workout_id = wid := by
    simpa using (List.mem_filter.mp hwe).2
  obtain ⟨e, he, heid⟩ := hfk we (List.mem_filter.mp hwe).1 hwid
  rw [Function.comp_apply,
    exercises_filter_eq_singleton db.exercises we.exercise_id e he heid hnd]
  simp only [List.flatMap_cons, List.flatMap_nil, List.append_nil]
  by_cases hss : db.sets.filter (fun s => s.workout_exercises_id == we.id) = []
  · rw [if_pos hss]
    simp [List.countP_eq_length_filter, hss]
  · rw [if_neg hss]
    simp only [List.length_map]
    rw [if_neg ?_]
    · exact (List.countP_eq_length_filter _ _).symm
    · rw [List.countP_eq_length_filter]
      simpa using hss

/-- C7: with a fault-free store call, GET /workouts/:id responds 200
with one row per (workout_exercise, set) pair of the workout (under the
schema invariants that each workout_exercise references an existing
exercise and that exercise ids are unique); a workout_exercise with no
sets still appears, as a single row whose reps and weight are null; and
a workout with no exercises yields an empty result, not an error. -/
theorem claim_C7_get_workout_detail (wid : Int) (errs : Nat → Bool) (db : DB)
    (hfk : ∀ we ∈ db.workout_exercises, we.workout_id = wid →
      ∃ e ∈ db.exercises, e.id = we.exercise_id)
    (hnd : (db.exercises.map (fun e => e.id)).Nodup)
    (herr : errs 0 = false) :
    (getWorkoutDetailHandler wid errs db).status = 200
    ∧ (getWorkoutDetailHandler wid errs db).rows = workoutDetailRows wid db
    ∧ (getWorkoutDetailHandler wid errs db).rows.length = expectedDetailCount wid db
    ∧ (∀ we ∈ db.workout_exercises, we.workout_id = wid →
        ∀ e ∈ db.exercises, e.id = we.exercise_id →
          ((db.sets.filter (fun s => s.workout_exercises_id == we.id) = [] →
              (⟨we.id, e.name, none, none⟩ : DetailRow)
                ∈ (getWorkoutDetailHandler wid errs db).rows)
           ∧ (∀ s ∈ db.sets, s.workout_exercises_id = we.id →
              (⟨we.id, e.name, some s.reps, some s.weight⟩ : DetailRow)
                ∈ (getWorkoutDetailHandler wid errs db).rows)))
    ∧ (db.workout_exercises.filter (fun we => we.workout_id == wid) = [] →
        (getWorkoutDetailHandler wid errs db).rows = []) := by
  have s := stepFails_eq_errs errs 0 workoutDetailQuery (by decide)
  have hrows : (getWorkoutDetailHandler wid errs db).rows = workoutDetailRows wid db := by
    simp [getWorkoutDetailHandler, s, herr]
  refine ⟨by simp [getWorkoutDetailHandler, s, herr], hrows,
    by rw [hrows]; exact workoutDetailRows_length wid db hfk hnd, ?_, ?_⟩
  · intro we hwe hwid e he heid
    rw [hrows]
    have hwef : we ∈ db.workout_exercises.filter (fun we => we.workout_id == wid) :=
      List.mem_filter.mpr ⟨hwe, by simp [hwid]⟩
    have hef : e ∈ db.exercises.filter (fun x => x.id == we.exercise_id) :=
      List.mem_filter.mpr ⟨he, by simp [heid]⟩
    constructor
    · intro hss
      refine List.mem_flatMap.mpr ⟨we, hwef, List.mem_flatMap.mpr ⟨e, hef, ?_⟩⟩
      simp only [hss, if_pos]
      simp
    · intro st hst hsid
      have hsf : st ∈ db.sets.filter (fun s => s.workout_exercises_id == we.id) :=
        List.mem_filter.mpr ⟨hst, by simp [hsid]⟩
      refine List.mem_flatMap.mpr ⟨we, hwef, List.mem_flatMap.mpr ⟨e, hef, ?_⟩⟩
      rw [if_neg (List.ne_nil_of_mem hsf)]
      exact List.mem_map.mpr ⟨st, hsf, rfl⟩
  · intro hempty
    rw [hrows]
    unfold workoutDetailRows
    rw [hempty]
    rfl

/-- Witness for C7 on the seed store: workout 2 has one exercise with no
sets and the result is the single null-reps/null-weight row. -/
theorem claim_C7_get_workout_detail_witness :
    (getWorkoutDetailHandler 2 noErrs sampleDB).status = 200
    ∧ (⟨3, "Bench Press", none, none⟩ : DetailRow)
        ∈ (getWorkoutDetailHandler 2 noErrs sampleDB).rows :=
  have h := claim_C7_get_workout_detail 2 noErrs sampleDB (by decide) (by decide) rfl
  ⟨h.1,
   (h.2.2.2.1 ⟨3, 2, 2⟩ (by decide) rfl ⟨2, "Bench Press", "Barbell", "Chest"⟩
      (by decide) rfl).1 (by decide)⟩

theorem deleteWorkoutHandler_trace_texts (wid : Int) (errs : Nat → Bool) (db : DB) :
    (deleteWorkoutHandler wid errs db).trace.map Prod.fst =
      if errs 0 then [deleteWorkoutExerciseSetsQuery.text]
      else if errs 1 then
        [deleteWorkoutExerciseSetsQuery.text, deleteWorkoutExerciseQuery.text]
      else
        [deleteWorkoutExerciseSetsQuery.text, deleteWorkoutExerciseQuery.text,
         deleteWorkoutQuery.text] := by
  have s0 := stepFails_eq_errs errs 0 deleteWorkoutExerciseSetsQuery (by decide)
  have s1 := stepFails_eq_errs errs 1 deleteWorkoutExerciseQuery (by decide)
  have s2 := stepFails_eq_errs errs 2 deleteWorkoutQuery (by decide)
  cases h0 : errs 0 <;> cases h1 : errs 1 <;> cases h2 : errs 2 <;>
    simp [deleteWorkoutHandler, s0, s1, s2, h0, h1, h2] <;>
    (try (split_ifs <;> rfl))

theorem deleteWorkoutExerciseHandler_trace_texts (weid : Int) (errs : Nat → Bool)
    (db : DB) :
    (deleteWorkoutExerciseHandler weid errs db).trace.map Prod.fst =
      if errs 0 then [deleteSetsQuery.text]
      else [deleteSetsQuery.text, deleteWorkoutExerciseRowQuery.text] := by
  have s0 := stepFails_eq_errs errs 0 deleteSetsQuery (by decide)
  have h2 : stepFails errs 1 deleteWorkoutExerciseRowQuery = true := by
    simp [stepFails, deleteWorkoutExerciseRowQuery, tableExists]
  cases h0 : errs 0 <;>
    simp [deleteWorkoutExerciseHandler, s0, h0, h2]

theorem updateNotesHandler_trace_texts (wid : Int) (notes : String)
    (errs : Nat → Bool) (db : DB) :
    (updateNotesHandler wid notes errs db).trace.map Prod.fst
      = [updateNotesQuery.text] := by
  have s := stepFails_eq_errs errs 0 updateNotesQuery (by decide)
  cases h0 : errs 0 <;> simp [updateNotesHandler, s, h0] <;>
    (try (split_ifs <;> rfl))

/-- C8: the SQL text issued to the store by every handler is drawn from
that handler's fixed constant strings, independent of the user-supplied
path and body values, which appear only in the bound-parameter lists;
moreover the sequence of texts a delete or update handler issues is
identical across any two requests under the same error schedule. -/
theorem claim_C8_parameter_binding (errs : Nat → Bool) (db db2 : DB)
    (wid wid2 weid weid2 : Int) (nm dt : JSValue) (b : WorkoutExerciseBody)
    (sb : SetBody) (notes notes2 : String) :
    ((getWorkoutsHandler errs db).trace.map Prod.fst = [selectWorkoutsQuery.text])
    ∧ ((getExercisesHandler errs db).trace.map Prod.fst = [selectExercisesQuery.text])
    ∧ ((postWorkoutsHandler nm dt errs).trace.map Prod.fst = [insertWorkoutQuery.text])
    ∧ ((getWorkoutDetailHandler wid errs db).trace.map Prod.fst
        = [workoutDetailQuery.text])
    ∧ ((getWorkoutExercisesHandler wid errs db).trace.map Prod.fst
        = [workoutExercisesListQuery.text])
    ∧ ((updateNotesHandler wid notes errs db).trace.map Prod.fst
        = [updateNotesQuery.text])
    ∧ ((postWorkoutExercisesHandler b errs).trace.all
        (fun c => c.1 == insertWorkoutExerciseQuery.text) = true)
    ∧ ((postSetsHandler sb errs).trace.all
        (fun c => c.1 == insertSetQuery.text) = true)
    ∧ ((deleteWorkoutHandler wid errs db).trace.all
        (fun c => ([deleteWorkoutExerciseSetsQuery.text,
            deleteWorkoutExerciseQuery.text,
            deleteWorkoutQuery.text].contains c.1)
          && (c.2 == [JSValue.num wid])) = true)
    ∧ ((deleteWorkoutExerciseHandler weid errs db).trace.all
        (fun c => ([deleteSetsQuery.text,
            deleteWorkoutExerciseRowQuery.text].contains c.1)
          && (c.2 == [JSValue.num weid])) = true)
    ∧ ((deleteWorkoutHandler wid errs db).trace.map Prod.fst
        = (deleteWorkoutHandler wid2 errs db2).trace.map Prod.fst)
    ∧ ((deleteWorkoutExerciseHandler weid errs db).trace.map Prod.fst
        = (deleteWorkoutExerciseHandler weid2 errs db2).trace.map Prod.fst)
    ∧ ((updateNotesHandler wid notes errs db).trace.map Prod.fst
        = (updateNotesHandler wid2 notes2 errs db2).trace.map Prod.fst) := by
  refine ⟨?_, ?_, ?_, ?_, ?_, ?_, ?_, ?_, ?_, ?_, ?_, ?_, ?_⟩
  · simp only [getWorkoutsHandler]
    split_ifs <;> rfl
  · simp only [getExercisesHandler]
    split_ifs <;> rfl
  · simp only [postWorkoutsHandler]
    split_ifs <;> rfl
  · simp only [getWorkoutDetailHandler]
    split_ifs <;> rfl
  · simp only [getWorkoutExercisesHandler]
    split_ifs <;> rfl
  · exact updateNotesHandler_trace_texts wid notes errs db
  · cases hv : validateWorkoutExerciseInput b
    · simp only [postWorkoutExercisesHandler, hv]
      split_ifs <;> simp
    · simp [postWorkoutExercisesHandler, hv]
  · cases hv : validateSetInput sb
    · simp only [postSetsHandler, hv]
      split_ifs <;> simp
    · simp [postSetsHandler, hv]
  · have s0 := stepFails_eq_errs errs 0 deleteWorkoutExerciseSetsQuery (by decide)
    have s1 := stepFails_eq_errs errs 1 deleteWorkoutExerciseQuery (by decide)
    have s2 := stepFails_eq_errs errs 2 deleteWorkoutQuery (by decide)
    cases h0 : errs 0 <;> cases h1 : errs 1 <;> cases h2 : errs 2 <;>
      simp [deleteWorkoutHandler, s0, s1, s2, h0, h1, h2] <;>
      (try (split_ifs <;> simp)) <;> tauto
  · have s0 := stepFails_eq_errs errs 0 deleteSetsQuery (by decide)
    have h2 : stepFails errs 1 deleteWorkoutExerciseRowQuery = true := by
      simp [stepFails, deleteWorkoutExerciseRowQuery, tableExists]
    cases h0 : errs 0 <;> simp [deleteWorkoutExerciseHandler, s0, h0, h2]
  · rw [deleteWorkoutHandler_trace_texts, deleteWorkoutHandler_trace_texts]
  · rw [deleteWorkoutExerciseHandler_trace_texts,
      deleteWorkoutExerciseHandler_trace_texts]
  · rw [updateNotesHandler_trace_texts, updateNotesHandler_trace_texts]

end WorkoutTracker
